import Mathlib

/-!
Shallow embedding of the core pipeline of `app.py` (flight-recommendation
backend): the Health Signal Correlator (`process_health_data`), the
calendar-store reader (`clean_and_parse_json_file`), the time normalizer
(`format_iso_datetime`), the flight-record normalizer (`get_flight_details`),
the post-kickoff branch of `flight_recommendations_endpoint`, and the
lock discipline of the two durable stores.

Timestamps are modelled as integer seconds (the code parses ISO strings to
`datetime` values and only compares / subtracts them); heart-rate values are
rationals (Python floats used only for sums and one division).  Fallible
Python code that returns normally in every branch is modelled with total
functions; external collaborators (`json.loads`, the generation engine) are
taken as parameters.
-/

/- ===== Health Signal Correlator (app.py lines 368-468) ===== -/

/-- A sleep session from `sleepRecords` (`startTime` / `endTime`, parsed to
seconds since an arbitrary epoch). -/
structure SleepSession where
  startTime : ℤ
  endTime : ℤ
deriving DecidableEq

/-- One heart-rate sample (the `{'time': ..., 'bpm': ...}` dict built at
app.py line 421). -/
structure HRSample where
  time : ℤ
  bpm : ℚ
deriving DecidableEq

/-- One entry of `heartRateRecords`, holding its `samples` list. -/
structure HRRecord where
  samples : List HRSample
deriving DecidableEq

/-- The parsed health snapshot (`health_data.json`). -/
structure HealthData where
  sleepRecords : List SleepSession
  heartRateRecords : List HRRecord
deriving DecidableEq

/-- The dict returned by `process_health_data`. -/
structure HealthMetrics where
  avg_sleep_hr : Option ℚ
  is_sleep_hr_high : Bool
  error : Option String
deriving DecidableEq

/-- Threshold constant `HIGH_SLEEP_HR_THRESHOLD = 70` (app.py line 370). -/
def HIGH_SLEEP_HR_THRESHOLD : ℚ := 70

/-- Length of `timedelta(days=1)` in seconds. -/
def secondsPerDay : ℤ := 86400

/-- Sessions kept by the trailing-window filter (app.py lines 395-403):
`start_time >= utcnow() - timedelta(days=days_to_consider)`. -/
def recentSleepSessions (now days : ℤ) (sessions : List SleepSession) : List SleepSession :=
  sessions.filter (fun s => decide (now - days * secondsPerDay ≤ s.startTime))

/-- Flattening of all heart-rate samples across records (app.py lines 415-421). -/
def allHRSamples (records : List HRRecord) : List HRSample :=
  (records.map HRRecord.samples).flatten

/-- The sample sort `all_hr_samples.sort(key=lambda x: x['time'])`
(app.py line 426): a stable ascending sort by timestamp. -/
def sortHRSamples (samples : List HRSample) : List HRSample :=
  samples.insertionSort (fun a b => a.time ≤ b.time)

/-- Per-session sum and count of the samples inside the session window,
boundaries inclusive (app.py lines 435-442). -/
def sessionStats (samples : List HRSample) (session : SleepSession) : ℚ × ℕ :=
  let inSession := samples.filter
    (fun smp => decide (session.startTime ≤ smp.time) && decide (smp.time ≤ session.endTime))
  ((inSession.map HRSample.bpm).sum, inSession.length)

/-- One iteration of the correlation loop (app.py lines 444-450): a session
contributes to the global totals only when it has at least one sample. -/
def addSessionStats (samples : List HRSample) (acc : ℚ × ℕ) (session : SleepSession) : ℚ × ℕ :=
  let st := sessionStats samples session
  if 0 < st.2 then (acc.1 + st.1, acc.2 + st.2) else acc

/-- The global `total_sleep_hr_sum` / `total_sleep_hr_count` accumulation
(app.py lines 411-450). -/
def sleepTotals (sessions : List SleepSession) (samples : List HRSample) : ℚ × ℕ :=
  sessions.foldl (addSessionStats samples) (0, 0)

/-- The totals as the specification words steps 3-4: sum and count pooled
across sessions unconditionally (no per-session guard). -/
def specSleepTotals (sessions : List SleepSession) (samples : List HRSample) : ℚ × ℕ :=
  sessions.foldl
    (fun acc session =>
      (acc.1 + (sessionStats samples session).1, acc.2 + (sessionStats samples session).2))
    (0, 0)

/-- Model of `process_health_data` (app.py lines 372-468).  `healthFile = none`
models a missing `health_data.json`; `now` is `datetime.utcnow()` in
seconds.  Every branch of the Python function returns a dict (per-item parse
failures are caught and skipped), which this total function mirrors. -/
def process_health_data (now : ℤ) (healthFile : Option HealthData) (days_to_consider : ℤ) :
    HealthMetrics :=
  match healthFile with
  | none => ⟨none, false, some "Health data file not found."⟩
  | some health_data =>
    if health_data.sleepRecords = [] ∨ health_data.heartRateRecords = [] then
      ⟨none, false, some "Missing sleep or heart rate data."⟩
    else
      let recent := recentSleepSessions now days_to_consider health_data.sleepRecords
      if recent = [] then
        ⟨none, false, some "No recent sleep data."⟩
      else
        let sorted := sortHRSamples (allHRSamples health_data.heartRateRecords)
        let totals := sleepTotals recent sorted
        if 0 < totals.2 then
          let avg := totals.1 / (totals.2 : ℚ)
          ⟨some avg, decide (HIGH_SLEEP_HR_THRESHOLD < avg), none⟩
        else
          ⟨none, false, none⟩

/-- The worked example of the claim: session `[T, T+8h]` with `T = 0`,
in-session samples at `T+1h` (60 bpm) and `T+2h` (80 bpm) and an
out-of-session sample at `T-1h` (200 bpm). -/
def c1ExampleData : HealthData :=
  { sleepRecords := [⟨0, 28800⟩],
    heartRateRecords := [⟨[⟨3600, 60⟩, ⟨7200, 80⟩, ⟨-3600, 200⟩]⟩] }

/-- Snapshot with a windowed session but no overlapping samples: the one
sample lies after the session end. -/
def c3ZeroOverlapData : HealthData :=
  { sleepRecords := [⟨0, 100⟩],
    heartRateRecords := [⟨[⟨200, 90⟩]⟩] }

/-- Snapshot whose single in-session sample makes the average exactly 70. -/
def c4Avg70Data : HealthData :=
  { sleepRecords := [⟨0, 100⟩], heartRateRecords := [⟨[⟨50, 70⟩]⟩] }

/-- Snapshot whose single in-session sample makes the average exactly 70.01. -/
def c4Avg7001Data : HealthData :=
  { sleepRecords := [⟨0, 100⟩], heartRateRecords := [⟨[⟨50, 7001 / 100⟩]⟩] }

/- ===== Calendar store reader (app.py lines 199-233) and endpoint hand-off
     (app.py lines 652-726) ===== -/

/-- A parsed JSON value, as produced by `json.loads`.  The loader itself
(`json.loads`) is an external collaborator and is taken as a parameter
`loads` below; `none` models a `json.JSONDecodeError`. -/
inductive Json where
  | null : Json
  | bool : Bool → Json
  | num : ℚ → Json
  | str : String → Json
  | arr : List Json → Json
  | obj : List (String × Json) → Json

/-- Python `str.strip()` whitespace (the ASCII part). -/
def isPyWs (c : Char) : Bool :=
  c == ' ' || c == '\t' || c == '\n' || c == '\r' || c == '\x0b' || c == '\x0c'

/-- Model of `str.strip()`: drop whitespace from both ends. -/
def pyStrip (l : List Char) : List Char :=
  ((l.dropWhile isPyWs).reverse.dropWhile isPyWs).reverse

/-- The backtick character (obtained from a string literal). -/
def btChar : Char := "`".toList.headI

/-- The fence-stripping steps of `clean_and_parse_json_file`
(app.py lines 208-216): strip, then peel a leading ```` ```json ````,
then a leading ```` ``` ````, then a trailing ```` ``` ````,
re-stripping after each peel. -/
def removeFences (content : List Char) : List Char :=
  let raw1 := pyStrip content
  let raw2 := if ("```json".toList).isPrefixOf raw1 then pyStrip (raw1.drop 7) else raw1
  let raw3 := if ("```".toList).isPrefixOf raw2 then pyStrip (raw2.drop 3) else raw2
  if ("```".toList).isSuffixOf raw3 then pyStrip (raw3.take (raw3.length - 3)) else raw3

/-- Model of `clean_and_parse_json_file` (app.py lines 199-233).
`file = none` models a missing file (`os.path.exists` false); any read or
decode error returns `[]`, and parsed content that is not a JSON list
returns `[]`.  This is the function behind `GET /api/calendar/events`
(app.py lines 754-760), which returns its result directly. -/
def clean_and_parse_json_file (loads : List Char → Option Json)
    (file : Option (List Char)) : List Json :=
  match file with
  | none => []
  | some content =>
    let raw := removeFences content
    if raw = [] then []
    else
      match loads raw with
      | none => []
      | some (Json.arr events) => events
      | some _ => []

/-- A concrete `loads` instance for witnesses: parses exactly the text
`[1]` into a one-element JSON list. -/
def loadsArrOne : List Char → Option Json := fun s =>
  if s = "[1]".toList then some (Json.arr [Json.num 1]) else none

/-- Outcome of the recommendation crew kickoff as seen by the endpoint
(app.py lines 677-697): either the kickoff raised, or it completed leaving
the recommendation store in the given state (`none` = file absent). -/
inductive KickoffOutcome where
  | ok : Option (List Char) → KickoffOutcome
  | exc : KickoffOutcome

/-- What `flight_recommendations_endpoint` produces after the kickoff:
HTTP status, the `success` flag of the body, whether the `recommendations`
field carries real parsed content (rather than the error stub built at
app.py lines 690-697), and whether the background schedule thread was
started (app.py lines 700-708). -/
structure EndpointResult where
  httpStatus : ℕ
  successFlag : Bool
  recommendationsOk : Bool
  scheduleLaunched : Bool
deriving DecidableEq

/-- The post-kickoff branch of `flight_recommendations_endpoint`
(app.py lines 679-726): a raised kickoff is caught by the outer handler and
returns a 500 error; otherwise the store is read back, and the background
schedule thread is started exactly when `recommendations_generated` was set,
i.e. when the file existed and its content parsed as JSON. -/
def flight_recommendations_after_kickoff (loads : List Char → Option Json)
    (outcome : KickoffOutcome) : EndpointResult :=
  match outcome with
  | .exc => ⟨500, false, false, false⟩
  | .ok store =>
    match store with
    | none => ⟨200, true, false, false⟩
    | some content =>
      match loads content with
      | none => ⟨200, true, false, false⟩
      | some _ => ⟨200, true, true, true⟩

/- ===== Time normalization and flight-record normalizer
     (app.py lines 240-335) ===== -/

/-- A naive datetime as held by Python's `datetime` (calendar fields). -/
structure NaiveDT where
  year : ℤ
  month : ℤ
  day : ℤ
  hour : ℤ
  minute : ℤ
  second : ℤ
deriving DecidableEq

/-- The lexical content of a provider timestamp string, as
`datetime.fromisoformat` sees it: carrying a UTC offset (in minutes), naive
(no zone information at all), `Z`-suffixed, or not parseable. -/
inductive IsoInput where
  | aware : NaiveDT → ℤ → IsoInput
  | naive : NaiveDT → IsoInput
  | zsuffix : NaiveDT → IsoInput
  | malformed : IsoInput
deriving DecidableEq

/-- Gregorian leap-year rule. -/
def isLeapYear (y : ℤ) : Bool := y % 4 == 0 && (y % 100 != 0 || y % 400 == 0)

/-- Number of days in a month. -/
def daysInMonth (y m : ℤ) : ℤ :=
  if m = 2 then (if isLeapYear y then 29 else 28)
  else if m = 4 ∨ m = 6 ∨ m = 9 ∨ m = 11 then 30
  else 31

/-- The calendar day after `(y, m, d)`. -/
def nextDay (y m d : ℤ) : ℤ × ℤ × ℤ :=
  if d < daysInMonth y m then (y, m, d + 1)
  else if m < 12 then (y, m + 1, 1)
  else (y + 1, 1, 1)

/-- The calendar day before `(y, m, d)`. -/
def prevDay (y m d : ℤ) : ℤ × ℤ × ℤ :=
  if 1 < d then (y, m, d - 1)
  else if 1 < m then (y, m - 1, daysInMonth y (m - 1))
  else (y - 1, 12, 31)

/-- Conversion `datetime.astimezone(pytz.utc)`: subtract the source offset
(in minutes); an ISO offset is under 24h, so the date moves by at most one
day. -/
def shiftToUTC (dt : NaiveDT) (offsetMinutes : ℤ) : NaiveDT :=
  let total := dt.hour * 60 + dt.minute - offsetMinutes
  if total < 0 then
    let ymd := prevDay dt.year dt.month dt.day
    ⟨ymd.1, ymd.2.1, ymd.2.2, (total + 1440) / 60, (total + 1440) % 60, dt.second⟩
  else if 1440 ≤ total then
    let ymd := nextDay dt.year dt.month dt.day
    ⟨ymd.1, ymd.2.1, ymd.2.2, (total - 1440) / 60, (total - 1440) % 60, dt.second⟩
  else
    ⟨dt.year, dt.month, dt.day, total / 60, total % 60, dt.second⟩

/-- Zero-padding to two digits, as `strftime` does for month through second. -/
def pad2 (n : ℤ) : String := if n < 10 then "0" ++ toString n else toString n

/-- Zero-padding to four digits for the year field. -/
def pad4 (n : ℤ) : String :=
  if n < 10 then "000" ++ toString n
  else if n < 100 then "00" ++ toString n
  else if n < 1000 then "0" ++ toString n
  else toString n

/-- The output format `strftime('%Y-%m-%dT%H:%M:%SZ')`
(app.py lines 249 and 257). -/
def strftimeZ (dt : NaiveDT) : String :=
  pad4 dt.year ++ "-" ++ pad2 dt.month ++ "-" ++ pad2 dt.day ++ "T"
    ++ pad2 dt.hour ++ ":" ++ pad2 dt.minute ++ ":" ++ pad2 dt.second ++ "Z"

/-- Model of `format_iso_datetime` (app.py lines 240-263) over the lexed
timestamp.  `localOffsetMinutes` is the system timezone's UTC offset:
`datetime.astimezone` on a naive value presumes it is in the system
timezone, so an offset-free timestamp (which `fromisoformat` parses
successfully, taking the first branch) is shifted by the system offset.
A `Z`-suffixed string raises `ValueError` in `fromisoformat` before
Python 3.11 and goes through the fallback (strip the `Z`, localize as UTC,
no shift); from 3.11 on it parses directly with offset 0 — the output is
identical either way.  `malformed` input returns `None`. -/
def format_iso_datetime (localOffsetMinutes : ℤ) (s : IsoInput) : Option String :=
  match s with
  | .malformed => none
  | .aware dt off => some (strftimeZ (shiftToUTC dt off))
  | .naive dt => some (strftimeZ (shiftToUTC dt localOffsetMinutes))
  | .zsuffix dt => some (strftimeZ dt)

/-- One flight point: its `iataCode` and the `value` of each timing entry of
its `departure` / `arrival` timing arrays (`none` models a missing key or an
empty string, both falsy in the source's `all([...])` check). -/
structure FlightPoint where
  iataCode : Option String
  departureTimings : List (Option IsoInput)
  arrivalTimings : List (Option IsoInput)

/-- One raw segment entry with the fields the source projects
(app.py lines 300-307). -/
structure RawSegment where
  boardPointIataCode : Option String
  offPointIataCode : Option String
  scheduledSegmentDuration : Option String
  operatingCarrierCode : Option String
  operatingFlightNumber : Option String

/-- One raw leg entry with the fields the source projects
(app.py lines 308-314). -/
structure RawLeg where
  boardPointIataCode : Option String
  offPointIataCode : Option String
  aircraftType : Option String
  scheduledLegDuration : Option String

/-- One entry of the provider payload `response.data`. -/
structure RawFlight where
  flightPoints : List FlightPoint
  segments : List RawSegment
  legs : List RawLeg

/-- The `flightDesignator` block of the output record. -/
structure FlightDesignator where
  carrierCode : String
  flightNumber : String
  scheduledDepartureDate : String

/-- The `departure` / `arrival` blocks of the output record. -/
structure AirportTime where
  airportCode : String
  scheduledTimeISO : String

/-- The flight record built at app.py lines 315-320. -/
structure FlightOutput where
  flightDesignator : FlightDesignator
  departure : AirportTime
  arrival : AirportTime
  segments : List RawSegment
  legs : List RawLeg

/-- The body of the per-flight loop of `get_flight_details`
(app.py lines 278-322): skip entries with fewer than two points, missing
timings, missing codes or time strings, or unparseable times; otherwise
build the record, filtering segments and legs to the departure/arrival
airport pair. -/
def processFlight (localOff : ℤ) (carrier_code flight_number departure_date : String)
    (flight : RawFlight) : Option FlightOutput :=
  if flight.flightPoints.length < 2 then none
  else
    match flight.flightPoints.head?, flight.flightPoints.getLast? with
    | some departure_point, some arrival_point =>
      if departure_point.departureTimings.isEmpty || arrival_point.arrivalTimings.isEmpty then
        none
      else
        match departure_point.iataCode, arrival_point.iataCode,
              departure_point.departureTimings.head?.join,
              arrival_point.arrivalTimings.head?.join with
        | some departure_code, some arrival_code, some dstr, some astr =>
          match format_iso_datetime localOff dstr, format_iso_datetime localOff astr with
          | some departure_iso, some arrival_iso =>
            some
              { flightDesignator := ⟨carrier_code, flight_number, departure_date⟩,
                departure := ⟨departure_code, departure_iso⟩,
                arrival := ⟨arrival_code, arrival_iso⟩,
                segments := flight.segments.filter (fun seg =>
                  seg.boardPointIataCode == some departure_code
                    && seg.offPointIataCode == some arrival_code),
                legs := flight.legs.filter (fun leg =>
                  leg.boardPointIataCode == some departure_code
                    && leg.offPointIataCode == some arrival_code) }
          | _, _ => none
        | _, _, _, _ => none
    | _, _ => none

/-- Model of `get_flight_details` (app.py lines 265-335) past the provider
call: the loop over `response.data` keeps the first entry that yields a
complete record (the `break` at line 322) and returns the source's
`(details, error)` pair. -/
def get_flight_details (localOff : ℤ) (carrier_code flight_number departure_date : String)
    (data : List RawFlight) : Option FlightOutput × Option String :=
  if data.isEmpty then (none, some "No flight data available")
  else
    match data.findSome? (processFlight localOff carrier_code flight_number departure_date) with
    | some out => (some out, none)
    | none => (none, some "Could not extract complete flight details")

/-- Lexicographic order on character lists; on canonical
`YYYY-MM-DDTHH:MM:SSZ` strings it coincides with chronological order. -/
def lexLt : List Char → List Char → Bool
  | [], [] => false
  | [], _ :: _ => true
  | _ :: _, [] => false
  | a :: as, b :: bs => if a < b then true else if b < a then false else lexLt as bs

/-- Chronological comparison of two canonical ISO-Z timestamps. -/
def isoBefore (s1 s2 : String) : Bool := lexLt s1.toList s2.toList

/-- A provider payload whose only entry has its arrival one day before its
departure (both offset-aware, offset 0). -/
def c8BadFlight : RawFlight :=
  { flightPoints :=
      [⟨some "JFK", [some (IsoInput.aware ⟨2025, 1, 2, 0, 0, 0⟩ 0)], []⟩,
       ⟨some "LAX", [], [some (IsoInput.aware ⟨2025, 1, 1, 0, 0, 0⟩ 0)]⟩],
    segments := [], legs := [] }

/- ===== Durable-store access sites and the shared lock
     (app.py lines 177-233, 505-554, 679-697, 728-752) ===== -/

/-- The two durable stores of the pipeline. -/
inductive StoreName where
  | recommendation : StoreName
  | calendar : StoreName
deriving DecidableEq

/-- One syntactic access to a durable store in the source: the function
performing it, whether it writes, and whether it occurs inside a
`with calendar_lock:` block.  The lock is lexically scoped in the source,
so lock-holding is a static property of each access site. -/
structure StoreAccess where
  site : String
  store : StoreName
  isWrite : Bool
  underCalendarLock : Bool
deriving DecidableEq

/-- Every access to the recommendation store (`recommendations.json`) or the
calendar store (`calendar_events.json`) in `app.py`:
`read_calendar_events` (lines 182-197) and `clean_and_parse_json_file`
(lines 199-233, called by the calendar endpoint at line 759) read the
calendar store inside `with calendar_lock:`; the endpoint's read-back of the
recommendation store (lines 683-685) takes no lock; the recommendation
crew's write of the recommendation store happens through
`output_file=RECOMMENDATIONS_FILE` inside `crew.kickoff()` (line 639) with
no lock; and the background task's write of the calendar store happens
through `output_file=calendar_file` inside its kickoff (line 534) with no
lock. -/
def storeAccesses : List StoreAccess :=
  [⟨"read_calendar_events", .calendar, false, true⟩,
   ⟨"clean_and_parse_json_file", .calendar, false, true⟩,
   ⟨"flight_recommendations_endpoint.read_back", .recommendation, false, false⟩,
   ⟨"health_recommendations_task.output_file", .recommendation, true, false⟩,
   ⟨"run_schedule_generation_task.output_file", .calendar, true, false⟩]

/- ===== Helper lemmas ===== -/

theorem sessionStats_perm {s1 s2 : List HRSample} (h : List.Perm s1 s2) :
    sessionStats s1 = sessionStats s2 := by
  funext session
  unfold sessionStats
  have hf := h.filter
    (fun smp => decide (session.startTime ≤ smp.time) && decide (smp.time ≤ session.endTime))
  exact Prod.ext ((hf.map HRSample.bpm).sum_eq) hf.length_eq

theorem sleepTotals_perm (sessions : List SleepSession) {s1 s2 : List HRSample}
    (h : List.Perm s1 s2) : sleepTotals sessions s1 = sleepTotals sessions s2 := by
  unfold sleepTotals addSessionStats
  rw [sessionStats_perm h]

theorem sleepTotals_sort (sessions : List SleepSession) (samples : List HRSample) :
    sleepTotals sessions (sortHRSamples samples) = sleepTotals sessions samples :=
  sleepTotals_perm sessions (List.perm_insertionSort _ samples)

theorem sessionStats_sum_zero (samples : List HRSample) (session : SleepSession)
    (h : (sessionStats samples session).2 = 0) : (sessionStats samples session).1 = 0 := by
  unfold sessionStats at *
  simp only [List.length_eq_zero] at h
  simp [h]

theorem sleepTotals_eq_spec (sessions : List SleepSession) (samples : List HRSample) :
    sleepTotals sessions samples = specSleepTotals sessions samples := by
  unfold sleepTotals specSleepTotals
  congr 1
  funext acc session
  unfold addSessionStats
  by_cases h : 0 < (sessionStats samples session).2
  · simp [h]
  · have h2 : (sessionStats samples session).2 = 0 := by omega
    simp [h, sessionStats_sum_zero samples session h2, h2]

theorem removeFences_wrapped (b : Char) (t : List Char)
    (hb : isPyWs b = false) (hq : b ≠ btChar)
    (ht : (b :: t).reverse.dropWhile isPyWs = (b :: t).reverse) :
    removeFences ("```json\n".toList ++ (b :: t) ++ "\n```".toList) = b :: t := by
  rw [List.append_assoc]
  have e1 : pyStrip ("```json\n".toList ++ ((b :: t) ++ "\n```".toList))
      = "```json\n".toList ++ ((b :: t) ++ "\n```".toList) := by
    unfold pyStrip
    rw [show ("```json\n".toList ++ ((b :: t) ++ "\n```".toList)).dropWhile isPyWs
        = "```json\n".toList ++ ((b :: t) ++ "\n```".toList) from rfl]
    rw [List.reverse_append, List.reverse_append,
      show ("\n```".toList).reverse = "```\n".toList from rfl]
    rw [show ((("```\n".toList ++ (b :: t).reverse) ++ ("```json\n".toList).reverse)).dropWhile isPyWs
        = ("```\n".toList ++ (b :: t).reverse) ++ ("```json\n".toList).reverse from rfl]
    rw [List.reverse_append, List.reverse_append, List.reverse_reverse, List.reverse_reverse,
      show ("```\n".toList).reverse = "\n```".toList from rfl]
  have e3 : pyStrip ("\n".toList ++ ((b :: t) ++ "\n```".toList)) = (b :: t) ++ "\n```".toList := by
    unfold pyStrip
    rw [show ("\n".toList ++ ((b :: t) ++ "\n```".toList)).dropWhile isPyWs
        = ((b :: t) ++ "\n```".toList).dropWhile isPyWs from rfl]
    rw [show ((b :: t) ++ "\n```".toList) = b :: (t ++ "\n```".toList) from rfl,
      List.dropWhile_cons, hb, if_neg Bool.false_ne_true,
      show b :: (t ++ "\n```".toList) = (b :: t) ++ "\n```".toList from rfl]
    rw [List.reverse_append, show ("\n```".toList).reverse = "```\n".toList from rfl]
    rw [show (("```\n".toList ++ (b :: t).reverse)).dropWhile isPyWs
        = "```\n".toList ++ (b :: t).reverse from rfl]
    rw [List.reverse_append, List.reverse_reverse,
      show ("```\n".toList).reverse = "\n```".toList from rfl]
  have e4 : pyStrip ((b :: t) ++ "\n".toList) = b :: t := by
    unfold pyStrip
    rw [show ((b :: t) ++ "\n".toList) = b :: (t ++ "\n".toList) from rfl,
      List.dropWhile_cons, hb, if_neg Bool.false_ne_true,
      show b :: (t ++ "\n".toList) = (b :: t) ++ "\n".toList from rfl,
      List.reverse_append, show ("\n".toList).reverse = "\n".toList from rfl]
    rw [show (("\n".toList ++ (b :: t).reverse)).dropWhile isPyWs
        = ((b :: t).reverse).dropWhile isPyWs from rfl]
    rw [ht, List.reverse_reverse]
  have hpre3 : ("```".toList).isPrefixOf ((b :: t) ++ "\n```".toList) = false := by
    rw [show ("```".toList).isPrefixOf ((b :: t) ++ "\n```".toList)
        = (btChar == b && ("``".toList).isPrefixOf (t ++ "\n```".toList)) from rfl]
    rw [show (btChar == b) = false from beq_eq_false_iff_ne.mpr (Ne.symm hq), Bool.false_and]
  have hsuf : ("```".toList).isSuffixOf ((b :: t) ++ "\n```".toList) = true := by
    unfold List.isSuffixOf
    rw [List.reverse_append, show ("\n```".toList).reverse = "```\n".toList from rfl]
    rfl
  have htake : ((b :: t) ++ "\n```".toList).take (((b :: t) ++ "\n```".toList).length - 3)
      = (b :: t) ++ "\n".toList := by
    rw [List.length_append, show ("\n```".toList).length = 4 from rfl,
      show (b :: t).length + 4 - 3 = (b :: t).length + 1 from by omega,
      List.take_append, show ("\n```".toList).take 1 = "\n".toList from rfl]
  unfold removeFences
  simp only [e1]
  rw [if_pos (show ("```json".toList).isPrefixOf
      ("```json\n".toList ++ ((b :: t) ++ "\n```".toList)) = true from rfl)]
  rw [show List.drop 7 ("```json\n".toList ++ ((b :: t) ++ "\n```".toList))
      = "\n".toList ++ ((b :: t) ++ "\n```".toList) from rfl]
  rw [e3]
  rw [hpre3, if_neg Bool.false_ne_true]
  rw [hsuf, if_pos rfl]
  rw [htake, e4]

/- ===== Claim theorems ===== -/

/-- C1: over the trailing window the Correlator keeps exactly the sleep
sessions starting at or after `now - w` days, pools the sum and count of
heart-rate samples falling inside each kept session (boundaries inclusive)
across sessions, and reports `totalSum / totalCount` when the count is
positive; on the worked example (session `[T, T+8h]`, samples 60 bpm and
80 bpm inside, 200 bpm outside) the average is exactly 70. -/
theorem correlator_average_formula (now w : ℤ) (data : HealthData)
    (h1 : data.sleepRecords ≠ []) (h2 : data.heartRateRecords ≠ [])
    (h3 : recentSleepSessions now w data.sleepRecords ≠ []) :
    ((process_health_data now (some data) w).avg_sleep_hr =
      (if 0 < (specSleepTotals (recentSleepSessions now w data.sleepRecords)
                (allHRSamples data.heartRateRecords)).2 then
        some ((specSleepTotals (recentSleepSessions now w data.sleepRecords)
                (allHRSamples data.heartRateRecords)).1 /
              ((specSleepTotals (recentSleepSessions now w data.sleepRecords)
                (allHRSamples data.heartRateRecords)).2 : ℚ))
      else none))
    ∧ (process_health_data 0 (some c1ExampleData) 3).avg_sleep_hr = some 70 := by
  constructor
  · simp only [process_health_data]
    rw [if_neg (not_or.mpr ⟨h1, h2⟩), if_neg h3, sleepTotals_sort, sleepTotals_eq_spec]
    by_cases ht : 0 < (specSleepTotals (recentSleepSessions now w data.sleepRecords)
        (allHRSamples data.heartRateRecords)).2
    · simp [ht]
    · simp [ht]
  · norm_num [process_health_data, c1ExampleData, recentSleepSessions, allHRSamples,
      sortHRSamples, sleepTotals, addSessionStats, sessionStats, secondsPerDay,
      HIGH_SLEEP_HR_THRESHOLD, List.insertionSort, List.orderedInsert]

/-- Witness for C1: the average formula instantiated on the worked example. -/
theorem correlator_average_formula_witness :
    ((process_health_data 0 (some c1ExampleData) 3).avg_sleep_hr =
      (if 0 < (specSleepTotals (recentSleepSessions 0 3 c1ExampleData.sleepRecords)
                (allHRSamples c1ExampleData.heartRateRecords)).2 then
        some ((specSleepTotals (recentSleepSessions 0 3 c1ExampleData.sleepRecords)
                (allHRSamples c1ExampleData.heartRateRecords)).1 /
              ((specSleepTotals (recentSleepSessions 0 3 c1ExampleData.sleepRecords)
                (allHRSamples c1ExampleData.heartRateRecords)).2 : ℚ))
      else none))
    ∧ (process_health_data 0 (some c1ExampleData) 3).avg_sleep_hr = some 70 :=
  correlator_average_formula 0 3 c1ExampleData (by decide) (by decide) (by decide)

/-- C2: the background schedule thread is started if and only if the
recommendation store read-back succeeded — the file exists and its content
parses as JSON — and never when the kickoff raised. -/
theorem schedule_launch_iff_store_ok (loads : List Char → Option Json)
    (store : Option (List Char)) :
    ((flight_recommendations_after_kickoff loads (KickoffOutcome.ok store)).scheduleLaunched = true
      ↔ ∃ c v, store = some c ∧ loads c = some v)
    ∧ (flight_recommendations_after_kickoff loads KickoffOutcome.exc).scheduleLaunched = false := by
  refine ⟨⟨?_, ?_⟩, rfl⟩
  · intro hlaunch
    cases store with
    | none => exact absurd hlaunch (by simp [flight_recommendations_after_kickoff])
    | some c =>
      have hred : flight_recommendations_after_kickoff loads (KickoffOutcome.ok (some c))
          = (match loads c with
             | none => ⟨200, true, false, false⟩
             | some _ => ⟨200, true, true, true⟩) := rfl
      cases hl : loads c with
      | none =>
        rw [hred, hl] at hlaunch
        exact absurd hlaunch (by simp)
      | some v => exact ⟨c, v, rfl, hl⟩
  · rintro ⟨c, v, rfl, hl⟩
    have hred : flight_recommendations_after_kickoff loads (KickoffOutcome.ok (some c))
        = (match loads c with
           | none => ⟨200, true, false, false⟩
           | some _ => ⟨200, true, true, true⟩) := rfl
    rw [hred, hl]

/-- Counterexample to C3 as stated: with a windowed session and heart-rate
data but zero overlapping samples, the Correlator returns the average absent
and `isHigh = false` but `error = None` — no descriptive reason is returned
(the source only logs a warning and falls through to the final return with
`'error': None`). -/
theorem correlator_zero_overlap_counterexample :
    process_health_data 0 (some c3ZeroOverlapData) 3 = ⟨none, false, none⟩ := by decide

/-- C3 (amended): every degenerate input yields the average absent and
`isHigh = false` without raising (the model is a total function); the
missing-file, empty-sleep, empty-heart-rate and no-recent-session cases
carry a descriptive reason, while the zero-overlapping-samples case returns
`error = None`. -/
theorem correlator_degenerate_cases (now w : ℤ) (data : HealthData) :
    (process_health_data now none w = ⟨none, false, some "Health data file not found."⟩)
    ∧ (data.sleepRecords = [] →
        process_health_data now (some data) w
          = ⟨none, false, some "Missing sleep or heart rate data."⟩)
    ∧ (data.heartRateRecords = [] →
        process_health_data now (some data) w
          = ⟨none, false, some "Missing sleep or heart rate data."⟩)
    ∧ (data.sleepRecords ≠ [] → data.heartRateRecords ≠ [] →
        recentSleepSessions now w data.sleepRecords = [] →
        process_health_data now (some data) w = ⟨none, false, some "No recent sleep data."⟩)
    ∧ (data.sleepRecords ≠ [] → data.heartRateRecords ≠ [] →
        recentSleepSessions now w data.sleepRecords ≠ [] →
        (specSleepTotals (recentSleepSessions now w data.sleepRecords)
          (allHRSamples data.heartRateRecords)).2 = 0 →
        process_health_data now (some data) w = ⟨none, false, none⟩) := by
  refine ⟨rfl, ?_, ?_, ?_, ?_⟩
  · intro h; simp only [process_health_data]; rw [if_pos (Or.inl h)]
  · intro h; simp only [process_health_data]; rw [if_pos (Or.inr h)]
  · intro h1 h2 h3; simp only [process_health_data]
    rw [if_neg (not_or.mpr ⟨h1, h2⟩), if_pos h3]
  · intro h1 h2 h3 h4; simp only [process_health_data]
    rw [if_neg (not_or.mpr ⟨h1, h2⟩), if_neg h3, sleepTotals_sort, sleepTotals_eq_spec,
      if_neg (by omega)]

/-- Witness for C3 (amended): the degenerate cases instantiated on concrete
snapshots. -/
theorem correlator_degenerate_witness :
    (process_health_data 0 none 3 = ⟨none, false, some "Health data file not found."⟩)
    ∧ (process_health_data 0 (some ⟨[], [⟨[]⟩]⟩) 3
        = ⟨none, false, some "Missing sleep or heart rate data."⟩)
    ∧ (process_health_data 0 (some c3ZeroOverlapData) 3 = ⟨none, false, none⟩) :=
  ⟨(correlator_degenerate_cases 0 3 ⟨[], []⟩).1,
   (correlator_degenerate_cases 0 3 ⟨[], [⟨[]⟩]⟩).2.1 rfl,
   (correlator_degenerate_cases 0 3 c3ZeroOverlapData).2.2.2.2
     (by decide) (by decide) (by decide) (by decide)⟩

/-- C4: whenever the Correlator reports a present average, `isHigh` is true
exactly when that average strictly exceeds the threshold 70. -/
theorem isHigh_iff_threshold (now w : ℤ) (file : Option HealthData) (a : ℚ)
    (h : (process_health_data now file w).avg_sleep_hr = some a) :
    ((process_health_data now file w).is_sleep_hr_high = true ↔ HIGH_SLEEP_HR_THRESHOLD < a) := by
  match file with
  | none => simp [process_health_data] at h
  | some data =>
    simp only [process_health_data] at h ⊢
    by_cases c1 : data.sleepRecords = [] ∨ data.heartRateRecords = []
    · rw [if_pos c1] at h; simp at h
    · rw [if_neg c1] at h ⊢
      by_cases c2 : recentSleepSessions now w data.sleepRecords = []
      · rw [if_pos c2] at h; simp at h
      · rw [if_neg c2] at h ⊢
        by_cases c3 : 0 < (sleepTotals (recentSleepSessions now w data.sleepRecords)
            (sortHRSamples (allHRSamples data.heartRateRecords))).2
        · rw [if_pos c3] at h ⊢
          simp only [Option.some_inj] at h
          subst h
          simp
        · rw [if_neg c3] at h; simp at h

/-- Witness for C4: the boundary cases — an average of exactly 70 gives
`isHigh = false` and an average of 70.01 gives `isHigh = true`. -/
theorem isHigh_threshold_witness :
    ((process_health_data 0 (some c4Avg70Data) 3).is_sleep_hr_high = false)
    ∧ ((process_health_data 0 (some c4Avg7001Data) 3).is_sleep_hr_high = true) := by
  have h70 : (process_health_data 0 (some c4Avg70Data) 3).avg_sleep_hr = some 70 := by
    norm_num [process_health_data, c4Avg70Data, recentSleepSessions, allHRSamples,
      sortHRSamples, sleepTotals, addSessionStats, sessionStats, secondsPerDay,
      List.insertionSort, List.orderedInsert]
  have h7001 : (process_health_data 0 (some c4Avg7001Data) 3).avg_sleep_hr
      = some (7001 / 100) := by
    norm_num [process_health_data, c4Avg7001Data, recentSleepSessions, allHRSamples,
      sortHRSamples, sleepTotals, addSessionStats, sessionStats, secondsPerDay,
      List.insertionSort, List.orderedInsert]
  constructor
  · have h := isHigh_iff_threshold 0 3 (some c4Avg70Data) 70 h70
    have hn : ¬ HIGH_SLEEP_HR_THRESHOLD < (70 : ℚ) := by norm_num [HIGH_SLEEP_HR_THRESHOLD]
    exact Bool.eq_false_iff.mpr (fun hb => hn (h.mp hb))
  · exact (isHigh_iff_threshold 0 3 (some c4Avg7001Data) (7001 / 100) h7001).mpr
      (by norm_num [HIGH_SLEEP_HR_THRESHOLD])

/-- C5: the calendar-read path returns a value in every store state — the
empty list for a missing file, the parsed list for a JSON list wrapped in
markdown fences (the fences are stripped), and the empty list when the
cleaned content does not parse. -/
theorem calendar_read_robust (loads : List Char → Option Json) :
    (clean_and_parse_json_file loads none = [])
    ∧ (∀ b t xs, isPyWs b = false → b ≠ btChar →
        (b :: t).reverse.dropWhile isPyWs = (b :: t).reverse →
        loads (b :: t) = some (Json.arr xs) →
        clean_and_parse_json_file loads
          (some ("```json\n".toList ++ (b :: t) ++ "\n```".toList)) = xs)
    ∧ (∀ content, loads (removeFences content) = none →
        clean_and_parse_json_file loads (some content) = []) := by
  refine ⟨rfl, ?_, ?_⟩
  · intro b t xs hb hq ht hl
    simp only [clean_and_parse_json_file, removeFences_wrapped b t hb hq ht]
    rw [if_neg (List.cons_ne_nil b t), hl]
  · intro content hl
    simp only [clean_and_parse_json_file]
    by_cases hr : removeFences content = []
    · rw [if_pos hr]
    · rw [if_neg hr, hl]

/-- Witness for C5: a store holding a fenced JSON list is parsed to that
list under a concrete loader. -/
theorem calendar_read_robust_witness :
    clean_and_parse_json_file loadsArrOne
      (some ("```json\n".toList ++ ('[' :: "1]".toList) ++ "\n```".toList)) = [Json.num 1] :=
  (calendar_read_robust loadsArrOne).2.1 '[' "1]".toList [Json.num 1]
    rfl (by decide) rfl rfl

/-- C6: evaluation of the time normalizer at a timestamp carrying no offset.
`astimezone` presumes a naive datetime is in the system timezone, so with a
system offset of UTC-4 the code outputs `2025-04-01T01:55:00Z` for the
naive input `2025-03-31T21:55:00`, while treating the value as already-UTC
(as the claim and the code's own comment state) would output
`2025-03-31T21:55:00Z`; the two agree only when the system timezone is
UTC. -/
theorem naive_timestamp_treated_as_local :
    (format_iso_datetime (-240) (IsoInput.naive ⟨2025, 3, 31, 21, 55, 0⟩)
      = some "2025-04-01T01:55:00Z")
    ∧ (format_iso_datetime 0 (IsoInput.naive ⟨2025, 3, 31, 21, 55, 0⟩)
      = some "2025-03-31T21:55:00Z")
    ∧ ("2025-04-01T01:55:00Z" ≠ "2025-03-31T21:55:00Z") := by
  refine ⟨by decide, by decide, by decide⟩

/-- Counterexample to C7 as stated: when the recommendation store is missing
after the kickoff (a store write/read-back failure), the endpoint still
returns HTTP 200 with `success: True` — not an error response. -/
theorem store_failure_success_response :
    ((flight_recommendations_after_kickoff (fun _ => none)
        (KickoffOutcome.ok none)).httpStatus = 200)
    ∧ ((flight_recommendations_after_kickoff (fun _ => none)
        (KickoffOutcome.ok none)).successFlag = true)
    ∧ ((flight_recommendations_after_kickoff (fun _ => none)
        (KickoffOutcome.ok none)).recommendationsOk = false) :=
  ⟨rfl, rfl, rfl⟩

/-- C7 (amended): an exception raised during the recommendation kickoff
(including schema-validation failures) surfaces as an HTTP 500 error
response, but a recommendation-store write or read-back failure does not
fail the request: the endpoint returns HTTP 200 with `success: True`, an
error stub in the recommendations field, and skips the Schedule Stage. -/
theorem sync_error_propagation (loads : List Char → Option Json) :
    (flight_recommendations_after_kickoff loads KickoffOutcome.exc = ⟨500, false, false, false⟩)
    ∧ (flight_recommendations_after_kickoff loads (KickoffOutcome.ok none)
        = ⟨200, true, false, false⟩)
    ∧ (∀ c, loads c = none →
        flight_recommendations_after_kickoff loads (KickoffOutcome.ok (some c))
          = ⟨200, true, false, false⟩) := by
  refine ⟨rfl, rfl, fun c hc => ?_⟩
  have hred : flight_recommendations_after_kickoff loads (KickoffOutcome.ok (some c))
      = (match loads c with
         | none => ⟨200, true, false, false⟩
         | some _ => ⟨200, true, true, true⟩) := rfl
  rw [hred, hc]

/-- Witness for C7 (amended): a store whose content does not parse still
produces a 200 success response with the Schedule Stage skipped. -/
theorem sync_error_propagation_witness :
    flight_recommendations_after_kickoff (fun _ => none) (KickoffOutcome.ok (some "x".toList))
      = ⟨200, true, false, false⟩ :=
  (sync_error_propagation (fun _ => none)).2.2 "x".toList rfl

/-- Counterexample to C8 as stated: a payload whose only candidate entry has
its arrival one day before its departure is returned as a flight record
(with those very timestamps, the arrival chronologically before the
departure), not rejected. -/
theorem normalizer_no_ordering_check :
    (get_flight_details 0 "UA" "1" "2025-01-02" [c8BadFlight]
      = (some { flightDesignator := ⟨"UA", "1", "2025-01-02"⟩,
                departure := ⟨"JFK", "2025-01-02T00:00:00Z"⟩,
                arrival := ⟨"LAX", "2025-01-01T00:00:00Z"⟩,
                segments := [], legs := [] }, none))
    ∧ (isoBefore "2025-01-01T00:00:00Z" "2025-01-02T00:00:00Z" = true) := by
  refine ⟨rfl, by decide⟩

/-- C8 (amended): the Normalizer performs no ordering validation — for every
well-formed two-point payload it returns the record with the normalized
departure and arrival timestamps regardless of their order. -/
theorem normalizer_returns_without_ordering (localOff : ℤ)
    (cc fn dd dcode acode : String) (ddt adt : NaiveDT) (doff aoff : ℤ)
    (segs : List RawSegment) (legs : List RawLeg) :
    get_flight_details localOff cc fn dd
      [⟨[⟨some dcode, [some (IsoInput.aware ddt doff)], []⟩,
         ⟨some acode, [], [some (IsoInput.aware adt aoff)]⟩], segs, legs⟩]
      = (some { flightDesignator := ⟨cc, fn, dd⟩,
                departure := ⟨dcode, strftimeZ (shiftToUTC ddt doff)⟩,
                arrival := ⟨acode, strftimeZ (shiftToUTC adt aoff)⟩,
                segments := segs.filter (fun seg =>
                  seg.boardPointIataCode == some dcode && seg.offPointIataCode == some acode),
                legs := legs.filter (fun leg =>
                  leg.boardPointIataCode == some dcode && leg.offPointIataCode == some acode) },
         none) := rfl

/-- Counterexample to C9 as stated: not every access to the two durable
stores holds the shared lock. -/
theorem store_accesses_not_all_locked :
    storeAccesses.all (fun a => a.underCalendarLock) = false := rfl

/-- C9 (amended): exactly the two calendar-read helpers hold the shared
lock; the endpoint's read-back of the recommendation store and the two
crew-driven store writes (via `output_file`) run without it. -/
theorem store_lock_discipline :
    ((storeAccesses.filter (fun a => a.underCalendarLock)).map StoreAccess.site
      = ["read_calendar_events", "clean_and_parse_json_file"])
    ∧ ((storeAccesses.filter (fun a => !a.underCalendarLock)).map StoreAccess.site
      = ["flight_recommendations_endpoint.read_back",
         "health_recommendations_task.output_file",
         "run_schedule_generation_task.output_file"]) :=
  ⟨rfl, rfl⟩

/-- C10: when the cleaned calendar-store content parses to a JSON value that
is not a list, the calendar-read path returns the empty list. -/
theorem calendar_read_nonlist (loads : List Char → Option Json) (content : List Char) (j : Json)
    (hl : loads (removeFences content) = some j) (hj : ∀ xs, j ≠ Json.arr xs) :
    clean_and_parse_json_file loads (some content) = [] := by
  simp only [clean_and_parse_json_file]
  by_cases hr : removeFences content = []
  · rw [if_pos hr]
  · rw [if_neg hr, hl]
    cases j with
    | null => rfl
    | bool b => rfl
    | num q => rfl
    | str s => rfl
    | arr xs => exact absurd rfl (hj xs)
    | obj kvs => rfl

/-- Witness for C10: a loader returning a JSON object makes the calendar
read yield the empty list. -/
theorem calendar_read_nonlist_witness :
    clean_and_parse_json_file (fun _ => some (Json.obj [])) (some ("x".toList)) = [] :=
  calendar_read_nonlist (fun _ => some (Json.obj [])) "x".toList (Json.obj []) rfl
    (fun _ h => Json.noConfusion h)
